import Mathlib

/-!
Verification of `src/main.cc`, a minimal clang-tooling example: the program
builds a fixed flag list, calls `clang::tooling::buildASTFromCodeWithArgs`
on `argv[1]`, bails out with exit code 1 if no `ASTUnit` comes back or its
diagnostics record an uncompilable error, and otherwise dumps the
translation unit in color to standard output and exits 0.

The toolchain (the clang library) is outside this repository, so it is
modelled as an abstract `Toolchain` value: a path constant `CLANG_PATH`
and a parse function returning `Option ASTUnit`.  The embedding of `main`
records, in a `ProcState`, the exit code, the dump calls issued against
standard output, and the arguments of every parse call it makes, so that
the claims about outputs and about the configuration handed to the
toolchain are statable.
-/

/-- The diagnostics state attached to a compilation result
(`AST->getDiagnostics()` in the source); the only field the program
inspects is `hasUncompilableErrorOccurred`. -/
structure DiagnosticsEngine where
  hasUncompilableErrorOccurred : Bool
deriving DecidableEq, Repr

/-- The translation-unit declaration; its colorized textual rendering
(`dumpColor`) is owned by the toolchain and modelled as an uninterpreted
string. -/
structure TranslationUnitDecl where
  dumpColorText : String
deriving DecidableEq, Repr

/-- `AST->getASTContext()`: the program only asks it for the
translation-unit declaration. -/
structure ASTContext where
  getTranslationUnitDecl : TranslationUnitDecl
deriving DecidableEq, Repr

/-- The `clang::ASTUnit` handle returned by the parse operation. -/
structure ASTUnit where
  getDiagnostics : DiagnosticsEngine
  getASTContext : ASTContext
deriving DecidableEq, Repr

/-- One invocation of `buildASTFromCodeWithArgs`, recording the four
arguments the program passes: the source code text, the flag list, the
virtual file name and the toolchain installation path. -/
structure ParseCall where
  code : String
  args : List String
  fileName : String
  toolchainPath : String
deriving DecidableEq, Repr

/-- The external compiler toolchain: the compile-time path constant
`CLANG_PATH` (defined by the build system, not by the source file) and
the parse entry point `buildASTFromCodeWithArgs`, which may fail by
returning `none` (a null `std::unique_ptr` in the source). -/
structure Toolchain where
  CLANG_PATH : String
  buildASTFromCodeWithArgs :
    String → List String → String → String → Option ASTUnit

/-- The observable outcome of one run of `main`: the process exit code,
the sequence of translation-unit dumps the program itself requested on
standard output, and the sequence of parse calls it issued. -/
structure ProcState where
  exitCode : Nat
  stdoutDumps : List TranslationUnitDecl
  parseCalls : List ParseCall
deriving DecidableEq, Repr

/-- The fixed flag list built at the top of `main`
(`src/main.cc`, lines 10-13). -/
def Args : List String := ["-std=c++20", "-Wall"]

/-- The body of `main` after `argv[1]` has been read: parse `argv1` as
the virtual file `"input.cc"` with the fixed `Args` and the toolchain
path, return 1 with no dump if the handle is null, return 1 with no dump
if the diagnostics record an uncompilable error, otherwise dump the
translation unit in color to standard output and return 0
(`src/main.cc`, lines 10-36). -/
def runMain (tc : Toolchain) (argv1 : String) : ProcState :=
  let call : ParseCall :=
    { code := argv1, args := Args, fileName := "input.cc",
      toolchainPath := tc.CLANG_PATH }
  match tc.buildASTFromCodeWithArgs argv1 Args "input.cc" tc.CLANG_PATH with
  | none => { exitCode := 1, stdoutDumps := [], parseCalls := [call] }
  | some AST =>
      if AST.getDiagnostics.hasUncompilableErrorOccurred then
        { exitCode := 1, stdoutDumps := [], parseCalls := [call] }
      else
        { exitCode := 0,
          stdoutDumps := [AST.getASTContext.getTranslationUnitDecl],
          parseCalls := [call] }

/-- `main` at the process boundary: it receives `argc` (declared
`[[maybe_unused]]` and never read) and the argument vector, and performs
an unchecked read of `argv[1]`.  When `argv[1]` is absent that read is
undefined behavior in the source, modelled here as `none`; when it is
present the run proceeds as `runMain` (`src/main.cc`, lines 9-36). -/
def runMainArgv (tc : Toolchain) (argc : Nat) (argv : List String) :
    Option ProcState :=
  match argv[1]? with
  | none => none
  | some src => some (runMain tc src)

/-! Concrete toolchain values used to exercise the theorems on closed
inputs: one that succeeds with a clean result, one that returns a null
handle, and one whose result carries an uncompilable error. -/

/-- A sample translation-unit declaration with a toolchain-owned dump. -/
def tuDemo : TranslationUnitDecl :=
  { dumpColorText := "TranslationUnitDecl <<invalid sloc>>" }

/-- A sample clean compilation result: no uncompilable error. -/
def astClean : ASTUnit :=
  { getDiagnostics := { hasUncompilableErrorOccurred := false },
    getASTContext := { getTranslationUnitDecl := tuDemo } }

/-- A sample broken compilation result: an uncompilable error occurred. -/
def astBroken : ASTUnit :=
  { getDiagnostics := { hasUncompilableErrorOccurred := true },
    getASTContext := { getTranslationUnitDecl := tuDemo } }

/-- A toolchain whose parse always succeeds cleanly. -/
def tcClean : Toolchain :=
  { CLANG_PATH := "/usr/lib/llvm-19",
    buildASTFromCodeWithArgs := fun _ _ _ _ => some astClean }

/-- A toolchain whose parse always returns a null handle. -/
def tcNull : Toolchain :=
  { CLANG_PATH := "/usr/lib/llvm-19",
    buildASTFromCodeWithArgs := fun _ _ _ _ => none }

/-- A toolchain whose parse always returns a result carrying an
uncompilable error. -/
def tcBroken : Toolchain :=
  { CLANG_PATH := "/usr/lib/llvm-19",
    buildASTFromCodeWithArgs := fun _ _ _ _ => some astBroken }

/-- Claim C1: whenever the toolchain parse returns a usable result whose
diagnostics record no uncompilable error, the program requests exactly one
colorized dump of that result's translation unit on standard output and
exits with status 0. -/
theorem c1_success_dumps_once_and_exits_zero
    (tc : Toolchain) (argv1 : String) (AST : ASTUnit)
    (hp : tc.buildASTFromCodeWithArgs argv1 Args "input.cc" tc.CLANG_PATH
            = some AST)
    (he : AST.getDiagnostics.hasUncompilableErrorOccurred = false) :
    (runMain tc argv1).stdoutDumps = [AST.getASTContext.getTranslationUnitDecl]
      ∧ (runMain tc argv1).exitCode = 0 := by
  simp [runMain, hp, he]

/-- Witness for C1 on the concrete clean toolchain and source `"int x;"`. -/
theorem c1_witness :
    (runMain tcClean "int x;").stdoutDumps
        = [astClean.getASTContext.getTranslationUnitDecl]
      ∧ (runMain tcClean "int x;").exitCode = 0 :=
  c1_success_dumps_once_and_exits_zero tcClean "int x;" astClean rfl rfl

/-- Claim C2: if the parse returns no usable result (a null handle), the
program exits with status 1 and performs no dump. -/
theorem c2_null_handle_exits_one_no_dump
    (tc : Toolchain) (argv1 : String)
    (hp : tc.buildASTFromCodeWithArgs argv1 Args "input.cc" tc.CLANG_PATH
            = none) :
    (runMain tc argv1).exitCode = 1 ∧ (runMain tc argv1).stdoutDumps = [] := by
  simp [runMain, hp]

/-- Witness for C2 on the concrete null-returning toolchain. -/
theorem c2_witness :
    (runMain tcNull "int x;").exitCode = 1
      ∧ (runMain tcNull "int x;").stdoutDumps = [] :=
  c2_null_handle_exits_one_no_dump tcNull "int x;" rfl

/-- Claim C3: if the parse returns a valid handle whose diagnostics
indicate an uncompilable error, the program exits with status 1 without
performing the dump. -/
theorem c3_uncompilable_exits_one_no_dump
    (tc : Toolchain) (argv1 : String) (AST : ASTUnit)
    (hp : tc.buildASTFromCodeWithArgs argv1 Args "input.cc" tc.CLANG_PATH
            = some AST)
    (he : AST.getDiagnostics.hasUncompilableErrorOccurred = true) :
    (runMain tc argv1).exitCode = 1 ∧ (runMain tc argv1).stdoutDumps = [] := by
  simp [runMain, hp, he]

/-- Witness for C3 on the concrete toolchain producing a broken result. -/
theorem c3_witness :
    (runMain tcBroken "int x = ;").exitCode = 1
      ∧ (runMain tcBroken "int x = ;").stdoutDumps = [] :=
  c3_uncompilable_exits_one_no_dump tcBroken "int x = ;" astBroken rfl rfl

/-- Claim C4: for every input and toolchain outcome the exit code is 0 or
1, and it is 0 exactly when the parse produced a result with no
uncompilable error. -/
theorem c4_exit_code_zero_or_one
    (tc : Toolchain) (argv1 : String) :
    ((runMain tc argv1).exitCode = 0 ∨ (runMain tc argv1).exitCode = 1)
      ∧ ((runMain tc argv1).exitCode = 0
          ↔ ∃ AST,
              tc.buildASTFromCodeWithArgs argv1 Args "input.cc" tc.CLANG_PATH
                  = some AST
                ∧ AST.getDiagnostics.hasUncompilableErrorOccurred = false) := by
  unfold runMain
  rcases hp : tc.buildASTFromCodeWithArgs argv1 Args "input.cc" tc.CLANG_PATH
    with _ | AST
  · simp
  · rcases he : AST.getDiagnostics.hasUncompilableErrorOccurred with _ | _
    · simp [he]
    · simp [he]

/-- Claim C5: whenever the program exits with status 1, it has written
nothing of its own to standard output: the dump list is empty. -/
theorem c5_failure_writes_nothing
    (tc : Toolchain) (argv1 : String)
    (h : (runMain tc argv1).exitCode = 1) :
    (runMain tc argv1).stdoutDumps = [] := by
  unfold runMain at h ⊢
  rcases hp : tc.buildASTFromCodeWithArgs argv1 Args "input.cc" tc.CLANG_PATH
    with _ | AST
  · simp
  · rcases he : AST.getDiagnostics.hasUncompilableErrorOccurred with _ | _
    · simp [hp, he] at h
    · simp [he]

/-- Witness for C5 on the concrete null-returning toolchain. -/
theorem c5_witness :
    (runMain tcNull "void f();").stdoutDumps = [] :=
  c5_failure_writes_nothing tcNull "void f();" rfl

/-- Claim C6: the configuration list passed to the toolchain is the fixed
constant `["-std=c++20", "-Wall"]` — one language-standard selector and
one warnings-enabled flag — on every run, independent of the toolchain
and of the process input. -/
theorem c6_fixed_flag_list
    (tc : Toolchain) (argv1 : String) :
    (runMain tc argv1).parseCalls.map ParseCall.args = [Args]
      ∧ Args = ["-std=c++20", "-Wall"] := by
  unfold runMain
  rcases tc.buildASTFromCodeWithArgs argv1 Args "input.cc" tc.CLANG_PATH
    with _ | AST
  · exact ⟨rfl, rfl⟩
  · rcases h : AST.getDiagnostics.hasUncompilableErrorOccurred with _ | _
    · exact ⟨by simp [h], rfl⟩
    · exact ⟨by simp [h], rfl⟩

/-- Claim C7: the source text handed to the toolchain is exactly the
first process argument, unmodified, for every possible argument string —
so no validation or transformation happens before the parse call. -/
theorem c7_source_passed_verbatim
    (tc : Toolchain) (argv1 : String) :
    (runMain tc argv1).parseCalls.map ParseCall.code = [argv1] := by
  unfold runMain
  rcases tc.buildASTFromCodeWithArgs argv1 Args "input.cc" tc.CLANG_PATH
    with _ | AST
  · rfl
  · rcases h : AST.getDiagnostics.hasUncompilableErrorOccurred with _ | _
    · simp [h]
    · simp [h]

/-- Claim C8: the read of `argv[1]` is unguarded: when an argument is
supplied (`argv[1]` exists) the run is well-defined, and when it is not,
the unchecked access leaves the behavior undefined (modelled as `none`). -/
theorem c8_unguarded_argv_read
    (tc : Toolchain) (argc : Nat) (argv : List String) :
    (1 < argv.length → ∃ r, runMainArgv tc argc argv = some r)
      ∧ (argv.length ≤ 1 → runMainArgv tc argc argv = none) := by
  constructor
  · intro h
    rcases hs : argv[1]? with _ | src
    · rw [List.getElem?_eq_none_iff] at hs
      omega
    · exact ⟨runMain tc src, by simp [runMainArgv, hs]⟩
  · intro h
    have hs : argv[1]? = none := by
      rw [List.getElem?_eq_none_iff]
      omega
    simp [runMainArgv, hs]

/-- Witness for C8: with two arguments the run is defined, with none it
is not. -/
theorem c8_witness :
    (∃ r, runMainArgv tcClean 2 ["prog", "int x;"] = some r)
      ∧ runMainArgv tcClean 0 [] = none :=
  ⟨(c8_unguarded_argv_read tcClean 2 ["prog", "int x;"]).1 (by decide),
   (c8_unguarded_argv_read tcClean 0 []).2 (by decide)⟩

/-- Claim C9: the virtual source-file name given to the toolchain is the
constant `"input.cc"` and the installation path is the compile-time
constant `CLANG_PATH`, on every run and independent of the process
input. -/
theorem c9_fixed_file_name_and_path
    (tc : Toolchain) (argv1 : String) :
    (runMain tc argv1).parseCalls.map ParseCall.fileName = ["input.cc"]
      ∧ (runMain tc argv1).parseCalls.map ParseCall.toolchainPath
          = [tc.CLANG_PATH] := by
  unfold runMain
  rcases tc.buildASTFromCodeWithArgs argv1 Args "input.cc" tc.CLANG_PATH
    with _ | AST
  · exact ⟨rfl, rfl⟩
  · rcases h : AST.getDiagnostics.hasUncompilableErrorOccurred with _ | _
    · simp [h]
    · simp [h]

/-- Claim C10: the argument count and the arguments beyond the first
never influence the program: two runs with the same `argv[1]` and the
same toolchain produce identical observable outcomes (exit code, output
and parse calls alike). -/
theorem c10_only_argv1_matters
    (tc : Toolchain) (argc argc2 : Nat) (argv argv2 : List String)
    (h : argv[1]? = argv2[1]?) :
    runMainArgv tc argc argv = runMainArgv tc argc2 argv2 := by
  unfold runMainArgv
  rw [h]

/-- Witness for C10: adding extra arguments and changing `argc` leaves
the outcome unchanged. -/
theorem c10_witness :
    runMainArgv tcClean 2 ["prog", "int x;"]
      = runMainArgv tcClean 4 ["other", "int x;", "-junk", "extra"] :=
  c10_only_argv1_matters tcClean 2 4 ["prog", "int x;"]
    ["other", "int x;", "-junk", "extra"] (by decide)
